import Mathlib

/-!
Shallow embedding of `pkg/deployer/deploy.go` from the spinnaker-operator
repository: the `Deployer.Deploy` orchestration pipeline, its helper
`completeConfig`, and the collaborator interfaces it drives.

External collaborators (the halconfig carrier loaders, manifest generation,
persistence, status commit, and the transformers themselves) are modelled as
function-valued fields of the `Deployer` record, mirroring the Go interfaces.
In-place mutation of the status snapshot (a pointer in Go) is modelled with an
explicit heap of status cells, so that `svc.Status.DeepCopy()` is a genuine
fresh allocation and aliasing questions are faithful.  Every collaborator
invocation and emitted event is recorded in a trace.
-/

/-- Deployment status of a SpinnakerService (`SpinnakerServiceStatus`): the
`Version` field that `Deploy` stamps, plus the remaining mutable fields,
abstracted as a list that transformers may extend. -/
structure SpinnakerStatus where
  version : String
  extra : List String
deriving DecidableEq, Repr, Inhabited

/-- The caller's `SpinnakerService` object: its name and the location of its
`Status` field in the heap (the Go object lives behind a pointer). -/
structure SpinnakerService where
  name : String
  statusRef : Nat
deriving DecidableEq, Repr

/-- `halconfig.SpinnakerConfig`: the normalized configuration, abstracted as a
property list (the hal config tree). -/
structure SpinnakerConfig where
  props : List (String × String)
deriving DecidableEq, Repr

/-- `generated.SpinnakerGeneratedConfig`: the bundle of generated manifests. -/
structure SpinnakerGeneratedConfig where
  items : List String
deriving DecidableEq, Repr

/-- Data of a `corev1.ConfigMap` carrier. -/
abbrev ConfigMapData := List (String × String)

/-- Data of a `corev1.Secret` carrier. -/
abbrev SecretData := List (String × String)

/-- The `runtime.Object` passed to `Deploy` as the configuration carrier: a
ConfigMap, a Secret, or any other object shape. -/
inductive RuntimeObject where
  | configMap (data : ConfigMapData)
  | secret (data : SecretData)
  | other
deriving DecidableEq, Repr

/-- Heap of status cells; a `Nat` indexes into it. -/
abbrev Heap := List SpinnakerStatus

/-- Dereference a status cell. -/
def heapGet (h : Heap) (r : Nat) : SpinnakerStatus := h.getD r default

/-- Write a status cell in place. -/
def heapSet (h : Heap) (r : Nat) (v : SpinnakerStatus) : Heap := h.set r v

/-- Allocate a fresh cell holding `v` (this is what `DeepCopy` does): returns
the new heap and the fresh reference. -/
def heapAlloc (h : Heap) (v : SpinnakerStatus) : Heap × Nat := (h ++ [v], h.length)

/-- Modelled from the spec: `halconfig.(*SpinnakerConfig).GetHalConfigPropString`
is not among the sources under verification; per the spec it is a best-effort
read of a scalar property addressed by path, returning the value on success,
and the empty string together with an error when the lookup fails. -/
def getHalConfigPropString (c : SpinnakerConfig) (prop : String) : String × Option String :=
  match c.props.lookup prop with
  | some v => (v, none)
  | none => ("", some ("property " ++ prop ++ " not found"))

/-- The `Transformer` interface: `TransformConfig` mutates the shared config in
place (modelled as returning the mutated config next to the optional error),
and `TransformManifests` mutates the generated bundle and the status snapshot
in place (modelled likewise, so a failing call still leaves its partial
mutation behind, as a Go method mutating through pointers would). -/
structure Transformer where
  transformConfig : SpinnakerConfig → SpinnakerConfig × Option String
  transformManifests : SpinnakerConfig → SpinnakerGeneratedConfig → SpinnakerStatus →
    (SpinnakerGeneratedConfig × SpinnakerStatus) × Option String

/-- The `TransformerGenerator` interface: builds a transformer bound to the
service, or fails. -/
structure TransformerGenerator where
  newTransformer : SpinnakerService → Except String Transformer

/-- The `Deployer` record: its registered transformer generators and its
external collaborators (`manifestGenerator.Generate`, `deployConfig`,
`commitConfigToStatus`, and the halconfig carrier loaders `FromConfigMap` and
`FromSecret`). -/
structure Deployer where
  generators : List TransformerGenerator
  generate : SpinnakerConfig → Except String SpinnakerGeneratedConfig
  deployConfig : SpinnakerGeneratedConfig → SpinnakerStatus → Except String Unit
  commitConfigToStatus : SpinnakerService → SpinnakerStatus → RuntimeObject → Except String Unit
  fromConfigMap : ConfigMapData → Except String SpinnakerConfig
  fromSecret : SecretData → Except String SpinnakerConfig

/-- One recorded collaborator invocation or emitted event during `Deploy`. -/
inductive Call where
  | eventConfigDetected (version : String)
  | newTransformer (idx : Nat)
  | transformConfig (idx : Nat)
  | generate
  | transformManifests (idx : Nat)
  | deployConfigCall
  | eventVersionSet (version : String)
  | commitStatus
deriving DecidableEq, Repr

/-- `Deployer.completeConfig` (deploy.go:105-118): resolve the carrier through
the matching loader, propagating its error unchanged, or fail for any other
object shape. -/
def completeConfig (d : Deployer) (config : RuntimeObject) : Except String SpinnakerConfig :=
  match config with
  | RuntimeObject.configMap cm => d.fromConfigMap cm
  | RuntimeObject.secret sec => d.fromSecret sec
  | RuntimeObject.other =>
      Except.error "SpinnakerService does not reference configMap or secret. No configuration found"

/-- Output of the forward loop of `Deploy` (deploy.go:66-75). -/
structure FwdOut where
  calls : List Call
  transformers : List Transformer
  config : SpinnakerConfig
  err : Option String

/-- The forward loop of `Deploy` (deploy.go:66-75): for each generator in
order, construct its transformer (appending it to the list) and immediately
apply `TransformConfig` to the shared config, stopping at the first error.
`idx` numbers the calls in the trace. -/
def forwardLoop (svc : SpinnakerService) :
    List TransformerGenerator → Nat → SpinnakerConfig → FwdOut
  | [], _, c => ⟨[], [], c, none⟩
  | g :: rest, idx, c =>
    match g.newTransformer svc with
    | Except.error e => ⟨[Call.newTransformer idx], [], c, some e⟩
    | Except.ok tr =>
      match tr.transformConfig c with
      | (c1, some e) =>
          ⟨[Call.newTransformer idx, Call.transformConfig idx], [tr], c1, some e⟩
      | (c1, none) =>
        let f := forwardLoop svc rest (idx + 1) c1
        ⟨Call.newTransformer idx :: Call.transformConfig idx :: f.calls,
          tr :: f.transformers, f.config, f.err⟩

/-- Output of the reverse loop of `Deploy` (deploy.go:85-90). -/
structure RevOut where
  calls : List Call
  heap : Heap
  bundle : SpinnakerGeneratedConfig
  err : Option String

/-- The reverse loop of `Deploy` (deploy.go:85-90): traverse the transformer
list in reverse order (`transformers[len(transformers)-i-1]`), applying
`TransformManifests` to the shared bundle and the status cell at `stRef`,
stopping at the first error.  The counter starts at `trs.length`; the call
with counter `k + 1` invokes the transformer at index `k`. -/
def reverseLoop (trs : List Transformer) (c : SpinnakerConfig) (stRef : Nat) :
    Heap → SpinnakerGeneratedConfig → Nat → RevOut
  | heap, l, 0 => ⟨[], heap, l, none⟩
  | heap, l, k + 1 =>
    match trs[k]? with
    | none => ⟨[], heap, l, none⟩
    | some tr =>
      match tr.transformManifests c l (heapGet heap stRef) with
      | ((l1, st1), some e) => ⟨[Call.transformManifests k], heapSet heap stRef st1, l1, some e⟩
      | ((l1, st1), none) =>
        let r := reverseLoop trs c stRef (heapSet heap stRef st1) l1 k
        ⟨Call.transformManifests k :: r.calls, r.heap, r.bundle, r.err⟩

/-- Models the Go assignment `status.Version = v` (deploy.go:99). -/
def stampStatus (heap : Heap) (rf : Nat) (v : String) : Heap :=
  heapSet heap rf { heapGet heap rf with version := v }

/-- Result of one `Deploy` invocation: the returned error (if any), the trace
of collaborator calls and events, the final in-memory state of the resolved
config and generated bundle, the heap after the call, and the reference of the
status snapshot when one was allocated. -/
structure DeployResult where
  error : Option String
  trace : List Call
  config : Option SpinnakerConfig
  bundle : Option SpinnakerGeneratedConfig
  heap : Heap
  snapshotRef : Option Nat

/-- `Deployer.Deploy` (deploy.go:47-102): resolve the carrier; best-effort
version read (its error is only logged); emit the config-detected event; run
the interleaved construction / forward-transform loop; generate manifests; deep
copy the service status into a fresh cell; run the reverse manifest-transform
loop; persist via `deployConfig`; emit the version-set event; stamp the version
on the snapshot; commit the snapshot via `commitConfigToStatus`.  Every step's
error is returned as-is and aborts the remainder. -/
def deploy (d : Deployer) (svc : SpinnakerService) (config : RuntimeObject) (heap : Heap) :
    DeployResult :=
  match completeConfig d config with
  | Except.error e => ⟨some e, [], none, none, heap, none⟩
  | Except.ok c =>
    let v := (getHalConfigPropString c "version").1
    let ev1 := Call.eventConfigDetected v
    let f := forwardLoop svc d.generators 0 c
    match f.err with
    | some e => ⟨some e, ev1 :: f.calls, some f.config, none, heap, none⟩
    | none =>
      match d.generate f.config with
      | Except.error e =>
          ⟨some e, ev1 :: f.calls ++ [Call.generate], some f.config, none, heap, none⟩
      | Except.ok l =>
        let a := heapAlloc heap (heapGet heap svc.statusRef)
        let r := reverseLoop f.transformers f.config a.2 a.1 l f.transformers.length
        match r.err with
        | some e =>
            ⟨some e, ev1 :: f.calls ++ Call.generate :: r.calls,
              some f.config, some r.bundle, r.heap, some a.2⟩
        | none =>
          match d.deployConfig r.bundle (heapGet r.heap a.2) with
          | Except.error e =>
              ⟨some e, ev1 :: f.calls ++ Call.generate :: r.calls ++ [Call.deployConfigCall],
                some f.config, some r.bundle, r.heap, some a.2⟩
          | Except.ok _ =>
            let heap3 := stampStatus r.heap a.2 v
            ⟨(match d.commitConfigToStatus svc (heapGet heap3 a.2) config with
              | Except.ok _ => none
              | Except.error e => some e),
              ev1 :: f.calls ++ Call.generate :: r.calls ++
                [Call.deployConfigCall, Call.eventVersionSet v, Call.commitStatus],
              some f.config, some r.bundle, heap3, some a.2⟩

/-- Concrete status used by the example deployments. -/
def exStatus : SpinnakerStatus := ⟨"old", []⟩

/-- Concrete service used by the example deployments. -/
def svcEx : SpinnakerService := ⟨"spinnaker", 0⟩

/-- Concrete one-cell heap holding the example service's status. -/
def heapEx : Heap := [exStatus]

/-- Concrete ConfigMap data carrying a version property. -/
def cmEx : ConfigMapData := [("version", "1.20.0")]

/-- Loader that succeeds, reflecting the carrier data into the config. -/
def okLoad : List (String × String) → Except String SpinnakerConfig :=
  fun dat => Except.ok ⟨dat⟩

/-- A transformer that appends its tag to the config, the bundle and the
status, and never fails. -/
def tagTransformer (tag : String) : Transformer :=
  ⟨fun c => (⟨c.props ++ [(tag, "applied")]⟩, none),
   fun _ l st => ((⟨l.items ++ [tag]⟩, ⟨st.version, st.extra ++ [tag]⟩), none)⟩

/-- Generator producing a `tagTransformer`. -/
def okGen (tag : String) : TransformerGenerator := ⟨fun _ => Except.ok (tagTransformer tag)⟩

/-- Generator whose transformer fails its forward call with error `e`. -/
def failFwdGen (e : String) : TransformerGenerator :=
  ⟨fun _ => Except.ok ⟨fun c => (c, some e), fun _ l st => ((l, st), none)⟩⟩

/-- Generator whose transformer fails its reverse call with error `e`. -/
def failRevGen (e : String) : TransformerGenerator :=
  ⟨fun _ => Except.ok ⟨fun c => (c, none), fun _ l st => ((l, st), some e)⟩⟩

/-- A deployer with the given generators whose external collaborators all
succeed. -/
def baseDeployer (gens : List TransformerGenerator) : Deployer :=
  ⟨gens, fun _ => Except.ok ⟨["base"]⟩, fun _ _ => Except.ok (),
   fun _ _ _ => Except.ok (), okLoad, okLoad⟩

/-- The conjunction of the successes of every step of `Deploy` that precedes
the status commit: carrier resolution, every transformer construction and
forward transform, manifest generation, every reverse transform, and artifact
persistence — staged exactly as `deploy` stages them. -/
def preCommitOk (d : Deployer) (svc : SpinnakerService) (config : RuntimeObject)
    (heap : Heap) : Bool :=
  match completeConfig d config with
  | Except.error _ => false
  | Except.ok c =>
    let f := forwardLoop svc d.generators 0 c
    match f.err with
    | some _ => false
    | none =>
      match d.generate f.config with
      | Except.error _ => false
      | Except.ok l =>
        let a := heapAlloc heap (heapGet heap svc.statusRef)
        let r := reverseLoop f.transformers f.config a.2 a.1 l f.transformers.length
        match r.err with
        | some _ => false
        | none =>
          match d.deployConfig r.bundle (heapGet r.heap a.2) with
          | Except.error _ => false
          | Except.ok _ => true

/-- Recognizes a forward "transform configuration" call in the trace. -/
def isForwardCall : Call → Bool
  | Call.transformConfig _ => true
  | _ => false

/-- Recognizes a reverse "transform manifests" call in the trace. -/
def isReverseCall : Call → Bool
  | Call.transformManifests _ => true
  | _ => false

/-- The property C6 asserts of the pipeline: every construction call appears in
the trace strictly before every forward "transform configuration" call. -/
def constructionPrecedesForward (t : List Call) : Prop :=
  ∀ (i j ci cj : Nat), t[i]? = some (Call.newTransformer ci) →
    t[j]? = some (Call.transformConfig cj) → i < j

/-- A deployer whose carrier loaders both fail. -/
def failLoadDeployer : Deployer :=
  ⟨[], fun _ => Except.ok ⟨["base"]⟩, fun _ _ => Except.ok (),
   fun _ _ _ => Except.ok (), fun _ => Except.error "cm read failed",
   fun _ => Except.error "sec read failed"⟩

/-- A deployer whose status commit fails after everything else succeeded. -/
def commitFailDeployer : Deployer :=
  ⟨[okGen "A"], fun _ => Except.ok ⟨["base"]⟩, fun _ _ => Except.ok (),
   fun _ _ _ => Except.error "commit boom", okLoad, okLoad⟩

/-- Carrier data with no version property. -/
def cmNoVersion : ConfigMapData := [("foo", "bar")]

/-- The forward-pass trace for `n` transformers constructed and forward
transformed without failure, starting at index `idx`: construction and forward
call strictly interleaved in registration order. -/
def fwdCalls (idx n : Nat) : List Call :=
  (List.range' idx n).flatMap fun i => [Call.newTransformer i, Call.transformConfig i]

/-- The reverse-pass trace for `n` transformers: indices `n-1` down to `0`. -/
def revCalls (n : Nat) : List Call :=
  (List.range n).reverse.map Call.transformManifests

theorem fwdCalls_succ (idx n : Nat) :
    fwdCalls idx (n + 1) =
      Call.newTransformer idx :: Call.transformConfig idx :: fwdCalls (idx + 1) n := by
  simp [fwdCalls, List.range'_succ idx n 1]

theorem revCalls_succ (n : Nat) :
    revCalls (n + 1) = Call.transformManifests n :: revCalls n := by
  simp [revCalls, List.range_succ n]

theorem mem_fwdCalls {x : Call} {idx n : Nat} (h : x ∈ fwdCalls idx n) :
    ∃ i, idx ≤ i ∧ i < idx + n ∧ (x = Call.newTransformer i ∨ x = Call.transformConfig i) := by
  simp only [fwdCalls, List.mem_flatMap, List.mem_range'_1] at h
  rcases h with ⟨i, ⟨hle, hlt⟩, hx⟩
  simp only [List.mem_cons, List.mem_singleton, List.not_mem_nil, or_false] at hx
  exact ⟨i, hle, hlt, hx⟩

theorem forwardLoop_calls_shape (svc : SpinnakerService) (gens : List TransformerGenerator)
    (idx : Nat) (c : SpinnakerConfig) :
    ∀ x ∈ (forwardLoop svc gens idx c).calls,
      ∃ i, x = Call.newTransformer i ∨ x = Call.transformConfig i := by
  induction gens generalizing idx c with
  | nil => intro x hx; simp [forwardLoop] at hx
  | cons g rest ih =>
    intro x hx
    rcases hg : g.newTransformer svc with e | tr
    · simp [forwardLoop, hg] at hx
      exact ⟨idx, Or.inl hx⟩
    · rcases ht : tr.transformConfig c with ⟨c1, _ | e⟩
      · simp [forwardLoop, hg, ht] at hx
        rcases hx with h | h | h
        · exact ⟨idx, Or.inl h⟩
        · exact ⟨idx, Or.inr h⟩
        · exact ih (idx + 1) c1 x h
      · simp [forwardLoop, hg, ht] at hx
        rcases hx with h | h
        · exact ⟨idx, Or.inl h⟩
        · exact ⟨idx, Or.inr h⟩

theorem forwardLoop_ok (svc : SpinnakerService) (gens : List TransformerGenerator)
    (idx : Nat) (c : SpinnakerConfig) (h : (forwardLoop svc gens idx c).err = none) :
    (forwardLoop svc gens idx c).calls = fwdCalls idx gens.length ∧
      (forwardLoop svc gens idx c).transformers.length = gens.length := by
  induction gens generalizing idx c with
  | nil => simp [forwardLoop, fwdCalls]
  | cons g rest ih =>
    rcases hg : g.newTransformer svc with e | tr
    · simp [forwardLoop, hg] at h
    · rcases ht : tr.transformConfig c with ⟨c1, _ | e⟩
      · simp only [forwardLoop, hg, ht] at h ⊢
        rcases ih (idx + 1) c1 h with ⟨h1, h2⟩
        simp [h1, h2, fwdCalls_succ]
      · simp [forwardLoop, hg, ht] at h

theorem reverseLoop_calls_shape (trs : List Transformer) (c : SpinnakerConfig)
    (stRef : Nat) :
    ∀ heap l k, ∀ x ∈ (reverseLoop trs c stRef heap l k).calls,
      ∃ i, x = Call.transformManifests i := by
  intro heap l k
  induction k generalizing heap l with
  | zero => intro x hx; simp [reverseLoop] at hx
  | succ k ih =>
    intro x hx
    rcases hk : trs[k]? with _ | tr
    · simp [reverseLoop, hk] at hx
    · rcases ht : tr.transformManifests c l (heapGet heap stRef) with ⟨⟨l1, st1⟩, _ | e⟩
      · simp [reverseLoop, hk, ht] at hx
        rcases hx with h | h
        · exact ⟨k, h⟩
        · exact ih _ _ x h
      · simp [reverseLoop, hk, ht] at hx
        exact ⟨k, hx⟩

theorem reverseLoop_ok (trs : List Transformer) (c : SpinnakerConfig) (stRef : Nat) :
    ∀ heap l k, k ≤ trs.length → (reverseLoop trs c stRef heap l k).err = none →
      (reverseLoop trs c stRef heap l k).calls = revCalls k := by
  intro heap l k
  induction k generalizing heap l with
  | zero => intro _ _; simp [reverseLoop, revCalls]
  | succ k ih =>
    intro hk h
    have hklt : k < trs.length := hk
    have hsome : trs[k]? = some trs[k] := List.getElem?_eq_getElem hklt
    rcases ht : trs[k].transformManifests c l (heapGet heap stRef) with
      ⟨⟨l1, st1⟩, _ | e⟩
    · simp only [reverseLoop, hsome, ht] at h ⊢
      rw [ih _ _ (Nat.le_of_succ_le hk) h, revCalls_succ]
    · simp [reverseLoop, hsome, ht] at h

theorem heapGet_set_ne (h : Heap) (r r' : Nat) (v : SpinnakerStatus) (hne : r' ≠ r) :
    heapGet (heapSet h r' v) r = heapGet h r := by
  simp [heapGet, heapSet, List.getD, List.getElem?_set_ne hne]

theorem heapGet_set_self (h : Heap) (r : Nat) (v : SpinnakerStatus) (hr : r < h.length) :
    heapGet (heapSet h r v) r = v := by
  simp [heapGet, heapSet, List.getD, List.getElem?_set_eq_of_lt v hr]

theorem heapGet_append_lt (h : Heap) (v : SpinnakerStatus) (r : Nat)
    (hr : r < h.length) : heapGet (h ++ [v]) r = heapGet h r := by
  simp [heapGet, List.getD, List.getElem?_append_left hr]

theorem heapSet_length (h : Heap) (r : Nat) (v : SpinnakerStatus) :
    (heapSet h r v).length = h.length := List.length_set h r v

theorem heapAlloc_snd (h : Heap) (v : SpinnakerStatus) : (heapAlloc h v).2 = h.length := rfl

theorem reverseLoop_heap_length (trs : List Transformer) (c : SpinnakerConfig)
    (stRef : Nat) :
    ∀ heap l k, (reverseLoop trs c stRef heap l k).heap.length = heap.length := by
  intro heap l k
  induction k generalizing heap l with
  | zero => simp [reverseLoop]
  | succ k ih =>
    rcases hk : trs[k]? with _ | tr
    · simp [reverseLoop, hk]
    · rcases ht : tr.transformManifests c l (heapGet heap stRef) with ⟨⟨l1, st1⟩, _ | e⟩
      · simp only [reverseLoop, hk, ht]
        rw [ih, heapSet_length]
      · simp [reverseLoop, hk, ht, heapSet_length]

theorem reverseLoop_frame (trs : List Transformer) (c : SpinnakerConfig) (stRef : Nat) :
    ∀ heap l k r', r' ≠ stRef →
      heapGet (reverseLoop trs c stRef heap l k).heap r' = heapGet heap r' := by
  intro heap l k
  induction k generalizing heap l with
  | zero => intro r' _; simp [reverseLoop]
  | succ k ih =>
    intro r' hne
    rcases hk : trs[k]? with _ | tr
    · simp [reverseLoop, hk]
    · rcases ht : tr.transformManifests c l (heapGet heap stRef) with ⟨⟨l1, st1⟩, _ | e⟩
      · simp only [reverseLoop, hk, ht]
        rw [ih _ _ r' hne, heapGet_set_ne heap r' stRef st1 (Ne.symm hne)]
      · simp only [reverseLoop, hk, ht]
        exact heapGet_set_ne heap r' stRef st1 (Ne.symm hne)

theorem not_mem_fwd_calls (svc : SpinnakerService) (gens : List TransformerGenerator)
    (idx : Nat) (c : SpinnakerConfig) {x : Call}
    (hx : ∀ i, x ≠ Call.newTransformer i ∧ x ≠ Call.transformConfig i) :
    x ∉ (forwardLoop svc gens idx c).calls := by
  intro h
  rcases forwardLoop_calls_shape svc gens idx c x h with ⟨i, hi | hi⟩
  · exact (hx i).1 hi
  · exact (hx i).2 hi

theorem not_mem_rev_calls (trs : List Transformer) (c : SpinnakerConfig)
    (stRef : Nat) (heap : Heap) (l : SpinnakerGeneratedConfig) (k : Nat) {x : Call}
    (hx : ∀ i, x ≠ Call.transformManifests i) :
    x ∉ (reverseLoop trs c stRef heap l k).calls := by
  intro h
  rcases reverseLoop_calls_shape trs c stRef heap l k x h with ⟨i, hi⟩
  exact hx i hi

/-- C1: `commitConfigToStatus` is invoked by `Deploy` if and only if carrier
resolution, every transformer construction and forward transform, manifest
generation, every reverse transform, and artifact persistence all succeeded;
any failure among those steps means the commit is never reached. -/
theorem deploy_commit_iff_preCommitOk (d : Deployer) (svc : SpinnakerService)
    (config : RuntimeObject) (heap : Heap) :
    Call.commitStatus ∈ (deploy d svc config heap).trace ↔
      preCommitOk d svc config heap = true := by
  rcases hcc : completeConfig d config with e | c
  · simp [deploy, preCommitOk, hcc]
  · have hfwd : Call.commitStatus ∉ (forwardLoop svc d.generators 0 c).calls :=
      not_mem_fwd_calls svc d.generators 0 c (fun i => by simp)
    rcases hf : (forwardLoop svc d.generators 0 c).err with _ | e
    · rcases hg : d.generate (forwardLoop svc d.generators 0 c).config with e | l
      · simp [deploy, preCommitOk, hcc, hf, hg, hfwd]
      · have hrev : Call.commitStatus ∉
            (reverseLoop (forwardLoop svc d.generators 0 c).transformers
              (forwardLoop svc d.generators 0 c).config
              (heapAlloc heap (heapGet heap svc.statusRef)).2
              (heapAlloc heap (heapGet heap svc.statusRef)).1 l
              (forwardLoop svc d.generators 0 c).transformers.length).calls :=
          not_mem_rev_calls _ _ _ _ _ _ (fun i => by simp)
        rcases hr : (reverseLoop (forwardLoop svc d.generators 0 c).transformers
            (forwardLoop svc d.generators 0 c).config
            (heapAlloc heap (heapGet heap svc.statusRef)).2
            (heapAlloc heap (heapGet heap svc.statusRef)).1 l
            (forwardLoop svc d.generators 0 c).transformers.length).err with _ | e
        · rcases hd : d.deployConfig (reverseLoop (forwardLoop svc d.generators 0 c).transformers
              (forwardLoop svc d.generators 0 c).config
              (heapAlloc heap (heapGet heap svc.statusRef)).2
              (heapAlloc heap (heapGet heap svc.statusRef)).1 l
              (forwardLoop svc d.generators 0 c).transformers.length).bundle
              (heapGet (reverseLoop (forwardLoop svc d.generators 0 c).transformers
                (forwardLoop svc d.generators 0 c).config
                (heapAlloc heap (heapGet heap svc.statusRef)).2
                (heapAlloc heap (heapGet heap svc.statusRef)).1 l
                (forwardLoop svc d.generators 0 c).transformers.length).heap
                (heapAlloc heap (heapGet heap svc.statusRef)).2) with e | u
          · simp [deploy, preCommitOk, hcc, hf, hg, hr, hd, hfwd, hrev]
          · simp [deploy, preCommitOk, hcc, hf, hg, hr, hd, hfwd, hrev]
        · simp [deploy, preCommitOk, hcc, hf, hg, hr, hfwd, hrev]
    · simp [deploy, preCommitOk, hcc, hf, hfwd]

theorem filter_fwdCalls_forward (idx n : Nat) :
    (fwdCalls idx n).filter isForwardCall = (List.range' idx n).map Call.transformConfig := by
  induction n generalizing idx with
  | zero => simp [fwdCalls]
  | succ n ih => simp [fwdCalls_succ, List.range'_succ idx n 1, isForwardCall, ih]

theorem filter_fwdCalls_reverse (idx n : Nat) :
    (fwdCalls idx n).filter isReverseCall = [] := by
  induction n generalizing idx with
  | zero => simp [fwdCalls]
  | succ n ih => simp [fwdCalls_succ, isReverseCall, ih]

theorem filter_map_manifests_reverse (ns : List Nat) :
    (ns.map Call.transformManifests).filter isReverseCall = ns.map Call.transformManifests := by
  induction ns with
  | nil => simp
  | cons a l ih => simp [isReverseCall, ih]

theorem filter_map_manifests_forward (ns : List Nat) :
    (ns.map Call.transformManifests).filter isForwardCall = [] := by
  induction ns with
  | nil => simp
  | cons a l ih => simp [isForwardCall, ih]

/-- C2: on a successful `Deploy` with `n` registered transformers, the trace
is exactly: the config-detected event; then, interleaved with constructions,
the forward "transform configuration" calls in registration order `0,…,n-1`;
then manifest generation; then the reverse "transform manifests" calls in the
exactly reversed order `n-1,…,0`; then persistence, the version event, and the
status commit.  In particular the filtered forward-call subsequence is
`0,…,n-1`, the filtered reverse-call subsequence is `n-1,…,0`, and every
forward call completes before any reverse call begins. -/
theorem deploy_success_trace (d : Deployer) (svc : SpinnakerService)
    (config : RuntimeObject) (heap : Heap)
    (h : (deploy d svc config heap).error = none) :
    ∃ v c, completeConfig d config = Except.ok c ∧
      (deploy d svc config heap).trace =
        Call.eventConfigDetected v :: fwdCalls 0 d.generators.length ++
          Call.generate :: revCalls d.generators.length ++
          [Call.deployConfigCall, Call.eventVersionSet v, Call.commitStatus] ∧
      (deploy d svc config heap).trace.filter isForwardCall =
        (List.range d.generators.length).map Call.transformConfig ∧
      (deploy d svc config heap).trace.filter isReverseCall =
        revCalls d.generators.length := by
  rcases hcc : completeConfig d config with e | c
  · simp [deploy, hcc] at h
  · rcases hf : (forwardLoop svc d.generators 0 c).err with _ | e
    · rcases hg : d.generate (forwardLoop svc d.generators 0 c).config with e | l
      · simp [deploy, hcc, hf, hg] at h
      · rcases hr : (reverseLoop (forwardLoop svc d.generators 0 c).transformers
            (forwardLoop svc d.generators 0 c).config
            (heapAlloc heap (heapGet heap svc.statusRef)).2
            (heapAlloc heap (heapGet heap svc.statusRef)).1 l
            (forwardLoop svc d.generators 0 c).transformers.length).err with _ | e
        · rcases hd : d.deployConfig (reverseLoop (forwardLoop svc d.generators 0 c).transformers
              (forwardLoop svc d.generators 0 c).config
              (heapAlloc heap (heapGet heap svc.statusRef)).2
              (heapAlloc heap (heapGet heap svc.statusRef)).1 l
              (forwardLoop svc d.generators 0 c).transformers.length).bundle
              (heapGet (reverseLoop (forwardLoop svc d.generators 0 c).transformers
                (forwardLoop svc d.generators 0 c).config
                (heapAlloc heap (heapGet heap svc.statusRef)).2
                (heapAlloc heap (heapGet heap svc.statusRef)).1 l
                (forwardLoop svc d.generators 0 c).transformers.length).heap
                (heapAlloc heap (heapGet heap svc.statusRef)).2) with e | u
          · simp [deploy, hcc, hf, hg, hr, hd] at h
          · obtain ⟨hcalls, hlen⟩ := forwardLoop_ok svc d.generators 0 c hf
            have hrev := reverseLoop_ok (forwardLoop svc d.generators 0 c).transformers
              (forwardLoop svc d.generators 0 c).config
              (heapAlloc heap (heapGet heap svc.statusRef)).2
              (heapAlloc heap (heapGet heap svc.statusRef)).1 l
              (forwardLoop svc d.generators 0 c).transformers.length le_rfl hr
            refine ⟨(getHalConfigPropString c "version").1, c, rfl, ?_, ?_, ?_⟩
            · simp only [deploy, hcc, hf, hg, hr, hd]
              rw [hcalls, hrev, hlen]
            · simp only [deploy, hcc, hf, hg, hr, hd]
              rw [hcalls, hrev, hlen]
              simp [List.filter_append, filter_fwdCalls_forward, filter_map_manifests_forward,
                revCalls, isForwardCall, List.range_eq_range']
            · simp only [deploy, hcc, hf, hg, hr, hd]
              rw [hcalls, hrev, hlen]
              simp [List.filter_append, filter_fwdCalls_reverse, filter_map_manifests_reverse,
                revCalls, isReverseCall]
        · simp [deploy, hcc, hf, hg, hr] at h
    · simp [deploy, hcc, hf] at h

/-- C2 witness: a concrete successful deployment with two transformers, with
the trace the theorem predicts. -/
theorem deploy_success_trace_witness :
    ∃ v c,
      completeConfig (baseDeployer [okGen "A", okGen "B"]) (RuntimeObject.configMap cmEx) =
        Except.ok c ∧
      (deploy (baseDeployer [okGen "A", okGen "B"]) svcEx (RuntimeObject.configMap cmEx)
          heapEx).trace =
        Call.eventConfigDetected v :: fwdCalls 0 (baseDeployer [okGen "A", okGen "B"]).generators.length ++
          Call.generate :: revCalls (baseDeployer [okGen "A", okGen "B"]).generators.length ++
          [Call.deployConfigCall, Call.eventVersionSet v, Call.commitStatus] ∧
      (deploy (baseDeployer [okGen "A", okGen "B"]) svcEx (RuntimeObject.configMap cmEx)
          heapEx).trace.filter isForwardCall =
        (List.range (baseDeployer [okGen "A", okGen "B"]).generators.length).map
          Call.transformConfig ∧
      (deploy (baseDeployer [okGen "A", okGen "B"]) svcEx (RuntimeObject.configMap cmEx)
          heapEx).trace.filter isReverseCall =
        revCalls (baseDeployer [okGen "A", okGen "B"]).generators.length :=
  deploy_success_trace (baseDeployer [okGen "A", okGen "B"]) svcEx
    (RuntimeObject.configMap cmEx) heapEx (by decide)

/-- C3: if transformer `Tk`'s forward "transform configuration" call fails
(the forward loop stops with its calls being exactly the interleaved prefix
through index `k`), then `Deploy` returns that error; transformers after `k`
receive no forward call (and are not even constructed); the manifest generator
is never invoked; no persistence happens and no status is committed; and the
mutated config — including the partial mutation `Tk` left behind — is kept
as-is, not rolled back: the result exposes exactly the forward loop's final
config. -/
theorem deploy_forward_failure (d : Deployer) (svc : SpinnakerService)
    (config : RuntimeObject) (heap : Heap) (c : SpinnakerConfig) (e : String) (k : Nat)
    (hc : completeConfig d config = Except.ok c)
    (hcalls : (forwardLoop svc d.generators 0 c).calls =
      fwdCalls 0 k ++ [Call.newTransformer k, Call.transformConfig k])
    (herr : (forwardLoop svc d.generators 0 c).err = some e) :
    (deploy d svc config heap).error = some e ∧
    (deploy d svc config heap).config = some (forwardLoop svc d.generators 0 c).config ∧
    Call.generate ∉ (deploy d svc config heap).trace ∧
    Call.commitStatus ∉ (deploy d svc config heap).trace ∧
    Call.deployConfigCall ∉ (deploy d svc config heap).trace ∧
    ∀ j, k < j →
      Call.transformConfig j ∉ (deploy d svc config heap).trace ∧
      Call.newTransformer j ∉ (deploy d svc config heap).trace := by
  refine ⟨?_, ?_, ?_, ?_, ?_, ?_⟩
  · simp [deploy, hc, herr]
  · simp [deploy, hc, herr]
  · intro hmem
    simp [deploy, hc, herr] at hmem
    exact not_mem_fwd_calls svc d.generators 0 c (fun i => by simp) hmem
  · intro hmem
    simp [deploy, hc, herr] at hmem
    exact not_mem_fwd_calls svc d.generators 0 c (fun i => by simp) hmem
  · intro hmem
    simp [deploy, hc, herr] at hmem
    exact not_mem_fwd_calls svc d.generators 0 c (fun i => by simp) hmem
  · intro j hj
    refine ⟨fun hmem => ?_, fun hmem => ?_⟩
    · simp [deploy, hc, herr, hcalls] at hmem
      rcases hmem with h | h
      · rcases mem_fwdCalls h with ⟨i, _, hlt, hx | hx⟩
        · simp at hx
        · simp at hx; omega
      · omega
    · simp [deploy, hc, herr, hcalls] at hmem
      rcases hmem with h | h
      · rcases mem_fwdCalls h with ⟨i, _, hlt, hx | hx⟩
        · simp at hx; omega
        · simp at hx
      · omega

/-- C3 witness: three registered transformers where the second one's forward
call fails; the failure shape hypotheses hold and the theorem's conclusions
follow at this concrete input. -/
theorem deploy_forward_failure_witness :
    ((forwardLoop svcEx (baseDeployer [okGen "A", failFwdGen "boomF", okGen "C"]).generators 0
        ⟨cmEx⟩).calls =
      fwdCalls 0 1 ++ [Call.newTransformer 1, Call.transformConfig 1]) ∧
    (deploy (baseDeployer [okGen "A", failFwdGen "boomF", okGen "C"]) svcEx
      (RuntimeObject.configMap cmEx) heapEx).error = some "boomF" ∧
    Call.generate ∉ (deploy (baseDeployer [okGen "A", failFwdGen "boomF", okGen "C"]) svcEx
      (RuntimeObject.configMap cmEx) heapEx).trace ∧
    Call.transformConfig 2 ∉ (deploy (baseDeployer [okGen "A", failFwdGen "boomF", okGen "C"])
      svcEx (RuntimeObject.configMap cmEx) heapEx).trace :=
  have h := deploy_forward_failure (baseDeployer [okGen "A", failFwdGen "boomF", okGen "C"])
    svcEx (RuntimeObject.configMap cmEx) heapEx ⟨cmEx⟩ "boomF" 1 rfl (by decide) rfl
  ⟨by decide, h.1, h.2.2.1, (h.2.2.2.2.2 2 (by decide)).1⟩

/-- C6 counterexample: in a plain successful two-transformer deployment the
trace is `[event, construct 0, forward 0, construct 1, forward 1, …]`, so the
construction of transformer 1 (position 3) comes after the forward call of
transformer 0 (position 2): construction is not a phase completed before the
forward pass begins. -/
theorem deploy_construction_not_a_phase :
    ¬ constructionPrecedesForward
      (deploy (baseDeployer [okGen "A", okGen "B"]) svcEx (RuntimeObject.configMap cmEx)
        heapEx).trace := by
  intro h
  unfold constructionPrecedesForward at h
  have := h 3 2 1 0 (by decide) (by decide)
  omega

/-- C6 (amended): construction and the forward pass are interleaved — each
transformer is constructed immediately before its own forward call; hence when
`Tk`'s forward call fails, `Tk` itself was constructed and invoked, but none of
the transformers after `k` is ever constructed. -/
theorem deploy_construction_interleaved (d : Deployer) (svc : SpinnakerService)
    (config : RuntimeObject) (heap : Heap) (c : SpinnakerConfig) (e : String) (k : Nat)
    (hc : completeConfig d config = Except.ok c)
    (hcalls : (forwardLoop svc d.generators 0 c).calls =
      fwdCalls 0 k ++ [Call.newTransformer k, Call.transformConfig k])
    (herr : (forwardLoop svc d.generators 0 c).err = some e) :
    Call.newTransformer k ∈ (deploy d svc config heap).trace ∧
    Call.transformConfig k ∈ (deploy d svc config heap).trace ∧
    ∀ j, k < j → Call.newTransformer j ∉ (deploy d svc config heap).trace := by
  refine ⟨?_, ?_, fun j hj hmem => ?_⟩
  · simp [deploy, hc, herr, hcalls]
  · simp [deploy, hc, herr, hcalls]
  · simp [deploy, hc, herr, hcalls] at hmem
    rcases hmem with h | h
    · rcases mem_fwdCalls h with ⟨i, _, hlt, hx | hx⟩
      · simp at hx; omega
      · simp at hx
    · omega

/-- C6 witness: two registered transformers where the first one's forward call
fails; the second is never constructed. -/
theorem deploy_construction_interleaved_witness :
    ((forwardLoop svcEx (baseDeployer [failFwdGen "stopA", okGen "B"]).generators 0
        ⟨cmEx⟩).calls = fwdCalls 0 0 ++ [Call.newTransformer 0, Call.transformConfig 0]) ∧
    Call.newTransformer 0 ∈ (deploy (baseDeployer [failFwdGen "stopA", okGen "B"]) svcEx
      (RuntimeObject.configMap cmEx) heapEx).trace ∧
    Call.newTransformer 1 ∉ (deploy (baseDeployer [failFwdGen "stopA", okGen "B"]) svcEx
      (RuntimeObject.configMap cmEx) heapEx).trace :=
  have h := deploy_construction_interleaved (baseDeployer [failFwdGen "stopA", okGen "B"])
    svcEx (RuntimeObject.configMap cmEx) heapEx ⟨cmEx⟩ "stopA" 0 rfl (by decide) rfl
  ⟨by decide, h.1, h.2.2 1 (by decide)⟩

/-- C4: if transformer `Tk`'s reverse "transform manifests" call fails (the
reverse loop stops, having processed exactly the indices `n-1` down to `k`),
`Deploy` returns that error at once: no transformer with a smaller index
receives a reverse call, `deployConfig` is never invoked (no partial
persistence), `commitConfigToStatus` is never called, and the in-memory effects
of the already-processed transformers remain: the result exposes exactly the
reverse loop's mutated bundle and heap (the snapshot cell included). -/
theorem deploy_reverse_failure (d : Deployer) (svc : SpinnakerService)
    (config : RuntimeObject) (heap : Heap) (c : SpinnakerConfig)
    (l : SpinnakerGeneratedConfig) (e : String) (k : Nat)
    (hc : completeConfig d config = Except.ok c)
    (hf : (forwardLoop svc d.generators 0 c).err = none)
    (hg : d.generate (forwardLoop svc d.generators 0 c).config = Except.ok l)
    (hr : (reverseLoop (forwardLoop svc d.generators 0 c).transformers
        (forwardLoop svc d.generators 0 c).config
        (heapAlloc heap (heapGet heap svc.statusRef)).2
        (heapAlloc heap (heapGet heap svc.statusRef)).1 l
        (forwardLoop svc d.generators 0 c).transformers.length).err = some e)
    (hcalls : (reverseLoop (forwardLoop svc d.generators 0 c).transformers
        (forwardLoop svc d.generators 0 c).config
        (heapAlloc heap (heapGet heap svc.statusRef)).2
        (heapAlloc heap (heapGet heap svc.statusRef)).1 l
        (forwardLoop svc d.generators 0 c).transformers.length).calls =
      (List.range' k ((forwardLoop svc d.generators 0 c).transformers.length - k)).reverse.map
        Call.transformManifests) :
    (deploy d svc config heap).error = some e ∧
    Call.deployConfigCall ∉ (deploy d svc config heap).trace ∧
    Call.commitStatus ∉ (deploy d svc config heap).trace ∧
    (∀ v, Call.eventVersionSet v ∉ (deploy d svc config heap).trace) ∧
    (deploy d svc config heap).bundle =
      some (reverseLoop (forwardLoop svc d.generators 0 c).transformers
        (forwardLoop svc d.generators 0 c).config
        (heapAlloc heap (heapGet heap svc.statusRef)).2
        (heapAlloc heap (heapGet heap svc.statusRef)).1 l
        (forwardLoop svc d.generators 0 c).transformers.length).bundle ∧
    (deploy d svc config heap).heap =
      (reverseLoop (forwardLoop svc d.generators 0 c).transformers
        (forwardLoop svc d.generators 0 c).config
        (heapAlloc heap (heapGet heap svc.statusRef)).2
        (heapAlloc heap (heapGet heap svc.statusRef)).1 l
        (forwardLoop svc d.generators 0 c).transformers.length).heap ∧
    (deploy d svc config heap).snapshotRef =
      some (heapAlloc heap (heapGet heap svc.statusRef)).2 ∧
    ∀ j, j < k → Call.transformManifests j ∉ (deploy d svc config heap).trace := by
  refine ⟨?_, ?_, ?_, ?_, ?_, ?_, ?_, fun j hj hmem => ?_⟩
  · simp [deploy, hc, hf, hg, hr]
  · intro hmem
    simp [deploy, hc, hf, hg, hr] at hmem
    rcases hmem with h | h
    · exact not_mem_fwd_calls svc d.generators 0 c (fun i => by simp) h
    · exact not_mem_rev_calls _ _ _ _ _ _ (fun i => by simp) h
  · intro hmem
    simp [deploy, hc, hf, hg, hr] at hmem
    rcases hmem with h | h
    · exact not_mem_fwd_calls svc d.generators 0 c (fun i => by simp) h
    · exact not_mem_rev_calls _ _ _ _ _ _ (fun i => by simp) h
  · intro v hmem
    simp [deploy, hc, hf, hg, hr] at hmem
    rcases hmem with h | h
    · exact not_mem_fwd_calls svc d.generators 0 c (fun i => by simp) h
    · exact not_mem_rev_calls _ _ _ _ _ _ (fun i => by simp) h
  · simp [deploy, hc, hf, hg, hr]
  · simp [deploy, hc, hf, hg, hr]
  · simp [deploy, hc, hf, hg, hr]
  · simp [deploy, hc, hf, hg, hr, hcalls] at hmem
    rcases hmem with h | h
    · exact not_mem_fwd_calls svc d.generators 0 c (fun i => by simp) h
    · omega

/-- C4 witness: three registered transformers where the middle one's reverse
call fails; indices 2 and 1 were processed in that order, index 0 receives no
reverse call, and neither persistence nor commit happens. -/
theorem deploy_reverse_failure_witness :
    ((reverseLoop (forwardLoop svcEx (baseDeployer [okGen "A", failRevGen "boomR", okGen "C"]).generators 0 ⟨cmEx⟩).transformers
        (forwardLoop svcEx (baseDeployer [okGen "A", failRevGen "boomR", okGen "C"]).generators 0 ⟨cmEx⟩).config
        (heapAlloc heapEx (heapGet heapEx svcEx.statusRef)).2
        (heapAlloc heapEx (heapGet heapEx svcEx.statusRef)).1 ⟨["base"]⟩
        (forwardLoop svcEx (baseDeployer [okGen "A", failRevGen "boomR", okGen "C"]).generators 0 ⟨cmEx⟩).transformers.length).calls =
      (List.range' 1 2).reverse.map Call.transformManifests) ∧
    (deploy (baseDeployer [okGen "A", failRevGen "boomR", okGen "C"]) svcEx
      (RuntimeObject.configMap cmEx) heapEx).error = some "boomR" ∧
    Call.deployConfigCall ∉ (deploy (baseDeployer [okGen "A", failRevGen "boomR", okGen "C"])
      svcEx (RuntimeObject.configMap cmEx) heapEx).trace ∧
    Call.transformManifests 0 ∉ (deploy (baseDeployer [okGen "A", failRevGen "boomR", okGen "C"])
      svcEx (RuntimeObject.configMap cmEx) heapEx).trace :=
  have h := deploy_reverse_failure (baseDeployer [okGen "A", failRevGen "boomR", okGen "C"])
    svcEx (RuntimeObject.configMap cmEx) heapEx ⟨cmEx⟩ ⟨["base"]⟩ "boomR" 1 rfl rfl rfl
    (by decide) (by decide)
  ⟨by decide, h.1, h.2.1, h.2.2.2.2.2.2.2 0 (by decide)⟩

/-- C5: a carrier that is neither a ConfigMap nor a Secret makes `Deploy` fail
with the configuration-resolution error; nothing else happens — no transformer
construction, no event, no generation, no commit (the trace is empty and the
heap untouched).  A ConfigMap or Secret carrier is resolved by delegating to
the corresponding loader, whose read error is propagated unchanged (again with
an empty trace). -/
theorem completeConfig_carrier_dispatch (d : Deployer) (svc : SpinnakerService) (heap : Heap)
    (cm : ConfigMapData) (sec : SecretData) (e1 e2 : String)
    (h1 : d.fromConfigMap cm = Except.error e1)
    (h2 : d.fromSecret sec = Except.error e2) :
    completeConfig d RuntimeObject.other =
      Except.error "SpinnakerService does not reference configMap or secret. No configuration found" ∧
    (deploy d svc RuntimeObject.other heap).error =
      some "SpinnakerService does not reference configMap or secret. No configuration found" ∧
    (deploy d svc RuntimeObject.other heap).trace = [] ∧
    (deploy d svc RuntimeObject.other heap).heap = heap ∧
    (∀ cm2, completeConfig d (RuntimeObject.configMap cm2) = d.fromConfigMap cm2) ∧
    (∀ sec2, completeConfig d (RuntimeObject.secret sec2) = d.fromSecret sec2) ∧
    (deploy d svc (RuntimeObject.configMap cm) heap).error = some e1 ∧
    (deploy d svc (RuntimeObject.configMap cm) heap).trace = [] ∧
    (deploy d svc (RuntimeObject.secret sec) heap).error = some e2 := by
  refine ⟨rfl, by simp [deploy, completeConfig], by simp [deploy, completeConfig],
    by simp [deploy, completeConfig], fun _ => rfl, fun _ => rfl, ?_, ?_, ?_⟩
  · simp [deploy, completeConfig, h1]
  · simp [deploy, completeConfig, h1]
  · simp [deploy, completeConfig, h2]

/-- C5 witness: with both loaders failing, the ConfigMap read error comes back
verbatim from `Deploy`. -/
theorem completeConfig_carrier_dispatch_witness :
    (deploy failLoadDeployer svcEx (RuntimeObject.configMap cmEx) heapEx).error =
      some "cm read failed" :=
  (completeConfig_carrier_dispatch failLoadDeployer svcEx heapEx cmEx [] "cm read failed"
    "sec read failed" rfl rfl).2.2.2.2.2.2.1

/-- C10: whenever carrier resolution succeeds, the very first entry of the
trace is the observability event announcing the detected configuration
version — it precedes every transformer construction and invocation, so it has
been emitted even if the attempt later fails at any step; when resolution
fails, the trace is empty and no event is emitted. -/
theorem deploy_event_before_transformers (d : Deployer) (svc : SpinnakerService)
    (config : RuntimeObject) (heap : Heap) :
    (∀ c, completeConfig d config = Except.ok c →
      (deploy d svc config heap).trace.head? =
        some (Call.eventConfigDetected (getHalConfigPropString c "version").1)) ∧
    (∀ e, completeConfig d config = Except.error e → (deploy d svc config heap).trace = []) := by
  constructor
  · intro c hc
    simp only [deploy, hc]
    rcases hf : (forwardLoop svc d.generators 0 c).err with _ | e
    · rcases hg : d.generate (forwardLoop svc d.generators 0 c).config with e | l
      · simp [hf, hg]
      · rcases hr : (reverseLoop (forwardLoop svc d.generators 0 c).transformers
            (forwardLoop svc d.generators 0 c).config
            (heapAlloc heap (heapGet heap svc.statusRef)).2
            (heapAlloc heap (heapGet heap svc.statusRef)).1 l
            (forwardLoop svc d.generators 0 c).transformers.length).err with _ | e
        · rcases hd : d.deployConfig (reverseLoop (forwardLoop svc d.generators 0 c).transformers
              (forwardLoop svc d.generators 0 c).config
              (heapAlloc heap (heapGet heap svc.statusRef)).2
              (heapAlloc heap (heapGet heap svc.statusRef)).1 l
              (forwardLoop svc d.generators 0 c).transformers.length).bundle
              (heapGet (reverseLoop (forwardLoop svc d.generators 0 c).transformers
                (forwardLoop svc d.generators 0 c).config
                (heapAlloc heap (heapGet heap svc.statusRef)).2
                (heapAlloc heap (heapGet heap svc.statusRef)).1 l
                (forwardLoop svc d.generators 0 c).transformers.length).heap
                (heapAlloc heap (heapGet heap svc.statusRef)).2) with e | u
          · simp [hf, hg, hr, hd]
          · simp [hf, hg, hr, hd]
        · simp [hf, hg, hr]
    · simp [hf]
  · intro e hc
    simp [deploy, hc]

/-- C10 witness: a concrete resolved deployment whose first trace entry is the
config-detected event carrying the version read from the config. -/
theorem deploy_event_before_transformers_witness :
    (deploy (baseDeployer [okGen "A"]) svcEx (RuntimeObject.configMap cmEx) heapEx).trace.head? =
      some (Call.eventConfigDetected (getHalConfigPropString ⟨cmEx⟩ "version").1) :=
  (deploy_event_before_transformers (baseDeployer [okGen "A"]) svcEx
    (RuntimeObject.configMap cmEx) heapEx).1 ⟨cmEx⟩ rfl

/-- C8: `Deploy` never mutates the caller's service declaration: the snapshot
is allocated as a deep copy in a fresh cell (distinct from the declaration's
status cell), every transformer mutation and the version stamp hit only that
copy, and in every outcome — including a failing `commitConfigToStatus` after
successful persistence — the declaration's status cell is unchanged from
before the call. -/
theorem deploy_preserves_declaration_status (d : Deployer) (svc : SpinnakerService)
    (config : RuntimeObject) (heap : Heap) (h : svc.statusRef < heap.length) :
    heapGet (deploy d svc config heap).heap svc.statusRef = heapGet heap svc.statusRef ∧
    ∀ rf, (deploy d svc config heap).snapshotRef = some rf → rf ≠ svc.statusRef := by
  have hne : svc.statusRef ≠ (heapAlloc heap (heapGet heap svc.statusRef)).2 := by
    rw [heapAlloc_snd]
    omega
  rcases hcc : completeConfig d config with e | c
  · simp [deploy, hcc]
  · rcases hf : (forwardLoop svc d.generators 0 c).err with _ | e
    · rcases hg : d.generate (forwardLoop svc d.generators 0 c).config with e | l
      · simp [deploy, hcc, hf, hg]
      · have hframe : heapGet (reverseLoop (forwardLoop svc d.generators 0 c).transformers
            (forwardLoop svc d.generators 0 c).config
            (heapAlloc heap (heapGet heap svc.statusRef)).2
            (heapAlloc heap (heapGet heap svc.statusRef)).1 l
            (forwardLoop svc d.generators 0 c).transformers.length).heap svc.statusRef =
            heapGet heap svc.statusRef := by
          rw [reverseLoop_frame _ _ _ _ _ _ svc.statusRef hne]
          exact heapGet_append_lt heap _ svc.statusRef h
        rcases hr : (reverseLoop (forwardLoop svc d.generators 0 c).transformers
            (forwardLoop svc d.generators 0 c).config
            (heapAlloc heap (heapGet heap svc.statusRef)).2
            (heapAlloc heap (heapGet heap svc.statusRef)).1 l
            (forwardLoop svc d.generators 0 c).transformers.length).err with _ | e
        · rcases hd : d.deployConfig (reverseLoop (forwardLoop svc d.generators 0 c).transformers
              (forwardLoop svc d.generators 0 c).config
              (heapAlloc heap (heapGet heap svc.statusRef)).2
              (heapAlloc heap (heapGet heap svc.statusRef)).1 l
              (forwardLoop svc d.generators 0 c).transformers.length).bundle
              (heapGet (reverseLoop (forwardLoop svc d.generators 0 c).transformers
                (forwardLoop svc d.generators 0 c).config
                (heapAlloc heap (heapGet heap svc.statusRef)).2
                (heapAlloc heap (heapGet heap svc.statusRef)).1 l
                (forwardLoop svc d.generators 0 c).transformers.length).heap
                (heapAlloc heap (heapGet heap svc.statusRef)).2) with e | u
          · constructor
            · simp only [deploy, hcc, hf, hg, hr, hd]
              exact hframe
            · intro rf hrf
              simp only [deploy, hcc, hf, hg, hr, hd, Option.some.injEq] at hrf
              rw [heapAlloc_snd] at hrf
              omega
          · constructor
            · simp only [deploy, hcc, hf, hg, hr, hd, stampStatus]
              rw [heapGet_set_ne _ _ _ _ (Ne.symm hne)]
              exact hframe
            · intro rf hrf
              simp only [deploy, hcc, hf, hg, hr, hd, Option.some.injEq] at hrf
              rw [heapAlloc_snd] at hrf
              omega
        · constructor
          · simp only [deploy, hcc, hf, hg, hr]
            exact hframe
          · intro rf hrf
            simp only [deploy, hcc, hf, hg, hr, Option.some.injEq] at hrf
            rw [heapAlloc_snd] at hrf
            omega
    · simp [deploy, hcc, hf]

/-- C8 witness: all steps succeed but the commit fails; artifacts were
persisted yet the declaration's status cell is untouched, and the snapshot
lives in a different cell. -/
theorem deploy_preserves_declaration_status_witness :
    svcEx.statusRef < heapEx.length ∧
    Call.deployConfigCall ∈ (deploy commitFailDeployer svcEx (RuntimeObject.configMap cmEx)
      heapEx).trace ∧
    (deploy commitFailDeployer svcEx (RuntimeObject.configMap cmEx) heapEx).error =
      some "commit boom" ∧
    heapGet (deploy commitFailDeployer svcEx (RuntimeObject.configMap cmEx) heapEx).heap
      svcEx.statusRef = heapGet heapEx svcEx.statusRef :=
  ⟨by decide, by decide, by decide,
    (deploy_preserves_declaration_status commitFailDeployer svcEx
      (RuntimeObject.configMap cmEx) heapEx (by decide)).1⟩

/-- C7: a failing version read never fails `Deploy` — the error is dropped
(only logged) and the pipeline proceeds with the empty version string: the
config-detected event announces version `""`, the version-set event announces
`""`, and the committed snapshot is stamped with version `""`.  With every
other collaborator succeeding, `Deploy` succeeds. -/
theorem deploy_version_read_tolerated (d : Deployer) (svc : SpinnakerService)
    (config : RuntimeObject) (heap : Heap) (c : SpinnakerConfig) (l : SpinnakerGeneratedConfig)
    (hc : completeConfig d config = Except.ok c)
    (hv : c.props.lookup "version" = none)
    (hf : (forwardLoop svc d.generators 0 c).err = none)
    (hg : d.generate (forwardLoop svc d.generators 0 c).config = Except.ok l)
    (hr : (reverseLoop (forwardLoop svc d.generators 0 c).transformers
        (forwardLoop svc d.generators 0 c).config
        (heapAlloc heap (heapGet heap svc.statusRef)).2
        (heapAlloc heap (heapGet heap svc.statusRef)).1 l
        (forwardLoop svc d.generators 0 c).transformers.length).err = none)
    (hd : ∀ b st, d.deployConfig b st = Except.ok ())
    (hcm : ∀ st, d.commitConfigToStatus svc st config = Except.ok ()) :
    (deploy d svc config heap).error = none ∧
    (deploy d svc config heap).trace.head? = some (Call.eventConfigDetected "") ∧
    Call.eventVersionSet "" ∈ (deploy d svc config heap).trace ∧
    ∃ rf, (deploy d svc config heap).snapshotRef = some rf ∧
      (heapGet (deploy d svc config heap).heap rf).version = "" := by
  have hv1 : (getHalConfigPropString c "version").1 = "" := by
    simp [getHalConfigPropString, hv]
  refine ⟨?_, ?_, ?_, ?_⟩
  · simp [deploy, hc, hf, hg, hr, hd, hcm]
  · simp [deploy, hc, hf, hg, hr, hd, hv1]
  · simp [deploy, hc, hf, hg, hr, hd, hv1]
  · refine ⟨(heapAlloc heap (heapGet heap svc.statusRef)).2, ?_, ?_⟩
    · simp [deploy, hc, hf, hg, hr, hd]
    · have hlen : (heapAlloc heap (heapGet heap svc.statusRef)).2 <
          (reverseLoop (forwardLoop svc d.generators 0 c).transformers
            (forwardLoop svc d.generators 0 c).config
            (heapAlloc heap (heapGet heap svc.statusRef)).2
            (heapAlloc heap (heapGet heap svc.statusRef)).1 l
            (forwardLoop svc d.generators 0 c).transformers.length).heap.length := by
        rw [reverseLoop_heap_length]
        simp [heapAlloc]
      simp only [deploy, hc, hf, hg, hr, hd, stampStatus, hv1]
      rw [heapGet_set_self _ _ _ hlen]

/-- C7 witness: a config with no version property deploys successfully, with
the empty version announced and stamped. -/
theorem deploy_version_read_tolerated_witness :
    (deploy (baseDeployer [okGen "A"]) svcEx (RuntimeObject.configMap cmNoVersion)
        heapEx).error = none ∧
    (deploy (baseDeployer [okGen "A"]) svcEx (RuntimeObject.configMap cmNoVersion)
        heapEx).trace.head? = some (Call.eventConfigDetected "") :=
  have h := deploy_version_read_tolerated (baseDeployer [okGen "A"]) svcEx
    (RuntimeObject.configMap cmNoVersion) heapEx ⟨cmNoVersion⟩ ⟨["base"]⟩ rfl (by decide) rfl
    rfl rfl (fun _ _ => rfl) (fun _ => rfl)
  ⟨h.1, h.2.1⟩

/-- C9: the error `Deploy` returns is exactly the error produced by the first
failing collaborator — carrier resolution, transformer construction or forward
transform (the forward loop's error), manifest generation, reverse transform
(the reverse loop's error), artifact persistence, or status commit — with no
wrapping or substitution; and when every collaborator succeeds, `Deploy`
returns no error at all, so the version read (whose failure is swallowed)
never contributes an error. -/
theorem deploy_error_unmodified (d : Deployer) (svc : SpinnakerService)
    (config : RuntimeObject) (heap : Heap) :
    (∀ e, completeConfig d config = Except.error e →
      (deploy d svc config heap).error = some e) ∧
    (∀ c e, completeConfig d config = Except.ok c →
      (forwardLoop svc d.generators 0 c).err = some e →
      (deploy d svc config heap).error = some e) ∧
    (∀ c e, completeConfig d config = Except.ok c →
      (forwardLoop svc d.generators 0 c).err = none →
      d.generate (forwardLoop svc d.generators 0 c).config = Except.error e →
      (deploy d svc config heap).error = some e) ∧
    (∀ c l e, completeConfig d config = Except.ok c →
      (forwardLoop svc d.generators 0 c).err = none →
      d.generate (forwardLoop svc d.generators 0 c).config = Except.ok l →
      (reverseLoop (forwardLoop svc d.generators 0 c).transformers
        (forwardLoop svc d.generators 0 c).config
        (heapAlloc heap (heapGet heap svc.statusRef)).2
        (heapAlloc heap (heapGet heap svc.statusRef)).1 l
        (forwardLoop svc d.generators 0 c).transformers.length).err = some e →
      (deploy d svc config heap).error = some e) ∧
    (∀ c l e, completeConfig d config = Except.ok c →
      (forwardLoop svc d.generators 0 c).err = none →
      d.generate (forwardLoop svc d.generators 0 c).config = Except.ok l →
      (reverseLoop (forwardLoop svc d.generators 0 c).transformers
        (forwardLoop svc d.generators 0 c).config
        (heapAlloc heap (heapGet heap svc.statusRef)).2
        (heapAlloc heap (heapGet heap svc.statusRef)).1 l
        (forwardLoop svc d.generators 0 c).transformers.length).err = none →
      d.deployConfig (reverseLoop (forwardLoop svc d.generators 0 c).transformers
        (forwardLoop svc d.generators 0 c).config
        (heapAlloc heap (heapGet heap svc.statusRef)).2
        (heapAlloc heap (heapGet heap svc.statusRef)).1 l
        (forwardLoop svc d.generators 0 c).transformers.length).bundle
        (heapGet (reverseLoop (forwardLoop svc d.generators 0 c).transformers
          (forwardLoop svc d.generators 0 c).config
          (heapAlloc heap (heapGet heap svc.statusRef)).2
          (heapAlloc heap (heapGet heap svc.statusRef)).1 l
          (forwardLoop svc d.generators 0 c).transformers.length).heap
          (heapAlloc heap (heapGet heap svc.statusRef)).2) = Except.error e →
      (deploy d svc config heap).error = some e) ∧
    (∀ c l e, completeConfig d config = Except.ok c →
      (forwardLoop svc d.generators 0 c).err = none →
      d.generate (forwardLoop svc d.generators 0 c).config = Except.ok l →
      (reverseLoop (forwardLoop svc d.generators 0 c).transformers
        (forwardLoop svc d.generators 0 c).config
        (heapAlloc heap (heapGet heap svc.statusRef)).2
        (heapAlloc heap (heapGet heap svc.statusRef)).1 l
        (forwardLoop svc d.generators 0 c).transformers.length).err = none →
      d.deployConfig (reverseLoop (forwardLoop svc d.generators 0 c).transformers
        (forwardLoop svc d.generators 0 c).config
        (heapAlloc heap (heapGet heap svc.statusRef)).2
        (heapAlloc heap (heapGet heap svc.statusRef)).1 l
        (forwardLoop svc d.generators 0 c).transformers.length).bundle
        (heapGet (reverseLoop (forwardLoop svc d.generators 0 c).transformers
          (forwardLoop svc d.generators 0 c).config
          (heapAlloc heap (heapGet heap svc.statusRef)).2
          (heapAlloc heap (heapGet heap svc.statusRef)).1 l
          (forwardLoop svc d.generators 0 c).transformers.length).heap
          (heapAlloc heap (heapGet heap svc.statusRef)).2) = Except.ok () →
      d.commitConfigToStatus svc
        (heapGet (stampStatus (reverseLoop (forwardLoop svc d.generators 0 c).transformers
          (forwardLoop svc d.generators 0 c).config
          (heapAlloc heap (heapGet heap svc.statusRef)).2
          (heapAlloc heap (heapGet heap svc.statusRef)).1 l
          (forwardLoop svc d.generators 0 c).transformers.length).heap
          (heapAlloc heap (heapGet heap svc.statusRef)).2
          (getHalConfigPropString c "version").1)
          (heapAlloc heap (heapGet heap svc.statusRef)).2) config = Except.error e →
      (deploy d svc config heap).error = some e) ∧
    (∀ c l, completeConfig d config = Except.ok c →
      (forwardLoop svc d.generators 0 c).err = none →
      d.generate (forwardLoop svc d.generators 0 c).config = Except.ok l →
      (reverseLoop (forwardLoop svc d.generators 0 c).transformers
        (forwardLoop svc d.generators 0 c).config
        (heapAlloc heap (heapGet heap svc.statusRef)).2
        (heapAlloc heap (heapGet heap svc.statusRef)).1 l
        (forwardLoop svc d.generators 0 c).transformers.length).err = none →
      d.deployConfig (reverseLoop (forwardLoop svc d.generators 0 c).transformers
        (forwardLoop svc d.generators 0 c).config
        (heapAlloc heap (heapGet heap svc.statusRef)).2
        (heapAlloc heap (heapGet heap svc.statusRef)).1 l
        (forwardLoop svc d.generators 0 c).transformers.length).bundle
        (heapGet (reverseLoop (forwardLoop svc d.generators 0 c).transformers
          (forwardLoop svc d.generators 0 c).config
          (heapAlloc heap (heapGet heap svc.statusRef)).2
          (heapAlloc heap (heapGet heap svc.statusRef)).1 l
          (forwardLoop svc d.generators 0 c).transformers.length).heap
          (heapAlloc heap (heapGet heap svc.statusRef)).2) = Except.ok () →
      d.commitConfigToStatus svc
        (heapGet (stampStatus (reverseLoop (forwardLoop svc d.generators 0 c).transformers
          (forwardLoop svc d.generators 0 c).config
          (heapAlloc heap (heapGet heap svc.statusRef)).2
          (heapAlloc heap (heapGet heap svc.statusRef)).1 l
          (forwardLoop svc d.generators 0 c).transformers.length).heap
          (heapAlloc heap (heapGet heap svc.statusRef)).2
          (getHalConfigPropString c "version").1)
          (heapAlloc heap (heapGet heap svc.statusRef)).2) config = Except.ok () →
      (deploy d svc config heap).error = none) := by
  refine ⟨?_, ?_, ?_, ?_, ?_, ?_, ?_⟩
  · intro e hc
    simp [deploy, hc]
  · intro c e hc hf
    simp [deploy, hc, hf]
  · intro c e hc hf hg
    simp [deploy, hc, hf, hg]
  · intro c l e hc hf hg hr
    simp [deploy, hc, hf, hg, hr]
  · intro c l e hc hf hg hr hd
    simp [deploy, hc, hf, hg, hr, hd]
  · intro c l e hc hf hg hr hd hcm
    simp [deploy, hc, hf, hg, hr, hd, stampStatus] at hcm ⊢
    simp [hcm]
  · intro c l hc hf hg hr hd hcm
    simp [deploy, hc, hf, hg, hr, hd, stampStatus] at hcm ⊢
    simp [hcm]

/-- C9 witness: a deployer whose status commit fails; `Deploy` returns exactly
the commit collaborator's error. -/
theorem deploy_error_unmodified_witness :
    (deploy commitFailDeployer svcEx (RuntimeObject.configMap cmEx) heapEx).error =
      some "commit boom" :=
  (deploy_error_unmodified commitFailDeployer svcEx (RuntimeObject.configMap cmEx)
      heapEx).2.2.2.2.2.1 ⟨cmEx⟩ ⟨["base"]⟩ "commit boom" rfl rfl rfl rfl rfl rfl
